import Mathlib

/-!
Shallow embedding of the "Grateful Hearts" journal backend
(`src/routers/journal_routes.py`, `src/security/dependencies.py`,
`src/models/journal.py`, `src/schemas/journal.py`) together with proofs
about the journal router's behaviour.

Conventions of the embedding:
* database tables are Lean lists of row structures, gathered in `DB`;
* SQL `SELECT ... WHERE` is `List.filter`/`List.find?`;
* auto-increment primary keys and `datetime.utcnow()` are passed in as
  explicit parameters (`newId`, `now`, ...);
* a handler that can raise `HTTPException` returns `Except HTTPError _`;
  handlers that also write return the post-state `DB` (the input `DB`
  unchanged on the error path, since the code raises before `commit`).
-/

namespace GratefulHearts

/-- `HTTPException(status_code=..., detail=...)` as raised by the routers. -/
structure HTTPError where
  status_code : Nat
  detail : String
deriving DecidableEq, Repr

/-- A value stored in a datetime-typed ORM attribute.  SQLModel table models
do not validate attribute assignments, so the Python code can (and in
`delete_journal` does) assign a plain string to a `datetime` column; the
embedding keeps both shapes apart. -/
inductive DateValue where
  | timestamp (t : Nat)
  | text (s : String)
deriving DecidableEq, Repr

/-- Modelled from the spec: `models/user.py` is not in the available source.
Spec §3 gives User at minimum `id`, `name`, `profile_image_url`; those are
exactly the fields the journal router reads. -/
structure User where
  id : Nat
  name : String
  profile_image_url : Option String
deriving DecidableEq, Repr

/-- `Journal` table row (`models/journal.py`). `created_at`/`updated_at`
are UTC timestamps modelled as `Nat`. -/
structure Journal where
  id : Nat
  user_id : Nat
  title : String
  body_snippet : Option String
  html_content : Option String
  is_private : Bool
  image_url : Option String
  is_deleted : Bool
  deleted_at : Option DateValue
  created_at : Nat
  updated_at : Nat
deriving DecidableEq, Repr

/-- `Tag` table row (`models/journal.py`): unique indexed `name`. -/
structure Tag where
  id : Nat
  name : String
deriving DecidableEq, Repr

/-- `JournalTagLink` association row (composite key `journal_id`, `tag_id`). -/
structure JournalTagLink where
  journal_id : Nat
  tag_id : Nat
deriving DecidableEq, Repr

/-- `JournalReactions` table row. -/
structure JournalReactions where
  id : Nat
  journal_id : Nat
  user_id : Nat
  reaction_type : String
  created_at : Nat
deriving DecidableEq, Repr

/-- `JournalFavorites` table row. -/
structure JournalFavorites where
  id : Nat
  journal_id : Nat
  user_id : Nat
  created_at : Nat
deriving DecidableEq, Repr

/-- `JournalShares` table row. -/
structure JournalShares where
  id : Nat
  journal_id : Nat
  user_id : Nat
  share_type : String
  shared_at : Nat
deriving DecidableEq, Repr

/-- `JournalReports` table row. -/
structure JournalReports where
  id : Nat
  journal_id : Nat
  reporter_id : Nat
  reason : String
  status : String
  created_at : Nat
  resolved_at : Option Nat
deriving DecidableEq, Repr

/-- Modelled from the spec: the Comment model is referenced by
`Journal.comments` but its module is not in the available source; spec §3
gives it `id`, `journal_id`, `user_id`, body text.  Only `journal_id` is
read by the journal router (for `comment_count`). -/
structure Comment where
  id : Nat
  journal_id : Nat
  user_id : Nat
  body : String
deriving DecidableEq, Repr

/-- The relational state the journal router operates on. -/
structure DB where
  users : List User
  journals : List Journal
  tags : List Tag
  journal_tag_link : List JournalTagLink
  journal_reactions : List JournalReactions
  journal_favorites : List JournalFavorites
  journal_shares : List JournalShares
  journal_reports : List JournalReports
  comments : List Comment
deriving DecidableEq, Repr

/-! ## Authentication dependency (`security/dependencies.py`, `get_current_user`) -/

/-- Decoded claim set of a bearer token, as an association list
(`claims.get("sub")` is an association-list lookup). -/
def Claims := List (String × String)

/-- `claims.get(key)`: first value bound to `key`, if any. -/
def claimsGet (claims : Claims) (key : String) : Option String :=
  (List.find? (fun p => p.1 == key) claims).map (fun p => p.2)

/-- Modelled from the spec: `decode_access_token` lives in `security/jwt.py`,
which is not in the available source.  Per spec §4.2 it either returns the
decoded claim set or fails (invalid signature / malformed / expired) with
some message; §4.2/§4.3 surface the failure as unauthorized (401).  The
embedding passes the decode outcome in as an `Except` value. -/
def DecodeResult := Except String Claims

/-- `get_current_user` from `security/dependencies.py`:
reject a non-bearer scheme, propagate decode failure, reject a missing or
falsy (`""`) `sub` claim, reject a non-integer `sub`, reject an unknown
user id, otherwise return the loaded `User`. -/
def get_current_user (scheme : String) (decoded : DecodeResult) (db : DB) :
    Except HTTPError User :=
  if scheme.toLower ≠ "bearer" then
    .error ⟨401, "Invalid authentication scheme"⟩
  else
    match decoded with
    | .error msg => .error ⟨401, msg⟩
    | .ok claims =>
      match claimsGet claims "sub" with
      | none => .error ⟨401, "Invalid token subject"⟩
      | some subject =>
        if subject = "" then
          .error ⟨401, "Invalid token subject"⟩
        else
          match subject.toInt? with
          | none => .error ⟨401, "Invalid token subject"⟩
          | some user_id =>
            match db.users.find? (fun u => (u.id : Int) == user_id) with
            | none => .error ⟨401, "User not found"⟩
            | some user => .ok user

/-! ## Request / response schemas (`schemas/journal.py`) -/

/-- `JournalCreate` request body. -/
structure JournalCreate where
  title : String
  body_snippet : Option String := none
  html_content : Option String := none
  is_private : Bool := false
  image_url : Option String := none
  tags : List String := []
deriving DecidableEq, Repr

/-- `JournalUpdate` request body under `model_dump(exclude_unset=True)`
semantics: an outer `none` means the field was absent from the payload and
is skipped; `some v` means the field was explicitly supplied with value
`v`.  For the four nullable columns the supplied value is itself an
`Option` (an explicit JSON `null` clears the column).  `title` is a
non-nullable column, so the only payloads that can be persisted supply it
as a string; an explicit `null` title would abort at commit and is not
modelled. -/
structure JournalUpdate where
  title : Option String := none
  body_snippet : Option (Option String) := none
  html_content : Option (Option String) := none
  is_private : Option Bool := none
  image_url : Option (Option String) := none
deriving DecidableEq, Repr

/-- `JournalReactionCreate` request body: `journal_id` and `reaction_type`
only — no actor-id field exists in the schema. -/
structure JournalReactionCreate where
  journal_id : Nat
  reaction_type : String
deriving DecidableEq, Repr

/-- `JournalFavoriteCreate` request body: `journal_id` only. -/
structure JournalFavoriteCreate where
  journal_id : Nat
deriving DecidableEq, Repr

/-- `JournalShareCreate` request body: `journal_id` and `share_type`
(default `"internal"`). -/
structure JournalShareCreate where
  journal_id : Nat
  share_type : String := "internal"
deriving DecidableEq, Repr

/-- `JournalReportCreate` request body: `journal_id` and `reason`. -/
structure JournalReportCreate where
  journal_id : Nat
  reason : String
deriving DecidableEq, Repr

/-- `TagResponse` projection. -/
structure TagResponse where
  id : Nat
  name : String
deriving DecidableEq, Repr

/-- `JournalFeedUserResponse` projection. -/
structure JournalFeedUserResponse where
  id : Nat
  name : String
  profile_image_url : Option String
deriving DecidableEq, Repr

/-- `JournalFeedResponse` projection.  `user` is the owner looked up
through the `Journal.user` relationship; `none` marks a dangling
`user_id` (which would raise in the Python serializer — referential
integrity makes it `some` in reachable states). -/
structure JournalFeedResponse where
  id : Nat
  user : Option JournalFeedUserResponse
  image_url : Option String
  title : String
  body_snippet : Option String
  html_content : Option String
  created_at : Nat
  comment_count : Nat
  share_count : Nat
  is_favorite : Bool
  tags : List TagResponse
  is_private : Bool
deriving DecidableEq, Repr

/-! ## Shared query helpers used by the journal router -/

/-- `session.get(Journal, journal_id)`: primary-key lookup. -/
def sessionGetJournal (db : DB) (journal_id : Nat) : Option Journal :=
  db.journals.find? (fun j => j.id == journal_id)

/-- `Journal.user` relationship projected to `JournalFeedUserResponse`. -/
def feedUserOf (db : DB) (j : Journal) : Option JournalFeedUserResponse :=
  (db.users.find? (fun u => u.id == j.user_id)).map
    (fun u => ⟨u.id, u.name, u.profile_image_url⟩)

/-- `len(journal.comments)`. -/
def commentCountOf (db : DB) (jid : Nat) : Nat :=
  (db.comments.filter (fun c => c.journal_id == jid)).length

/-- `journal.tags` relationship (through `journal_tag_link`) projected to
`TagResponse` rows. -/
def tagsOf (db : DB) (jid : Nat) : List TagResponse :=
  (db.journal_tag_link.filter (fun l => l.journal_id == jid)).filterMap
    (fun l => (db.tags.find? (fun t => t.id == l.tag_id)).map
      (fun t => (⟨t.id, t.name⟩ : TagResponse)))

/-- Per-journal share count, as computed by `get_journals_by_tag`:
`len(session.exec(select(JournalShares).where(journal_id == j.id)).all())`. -/
def directShareCount (db : DB) (jid : Nat) : Nat :=
  (db.journal_shares.filter (fun s => s.journal_id == jid)).length

/-- Per-journal favorite flag, as computed by `get_journals_by_tag`:
`bool(session.exec(select(JournalFavorites).where(...)).first())`. -/
def directIsFavorite (db : DB) (uid jid : Nat) : Bool :=
  (db.journal_favorites.find?
    (fun f => f.journal_id == jid && f.user_id == uid)).isSome

/-- One key per distinct value, first occurrence first — the key set of a
SQL `GROUP BY`. -/
def dedupKeys : List Nat → List Nat
  | [] => []
  | x :: xs => x :: (dedupKeys xs).filter (fun y => y ≠ x)

/-- The share rows whose `journal_id` lies in the page
(`WHERE journal_id IN ids`). -/
def sharesPageRows (db : DB) (ids : List Nat) : List JournalShares :=
  db.journal_shares.filter (fun s => ids.contains s.journal_id)

/-- The batched grouped share query of the feed endpoints:
`SELECT journal_id, COUNT(id) FROM journal_shares WHERE journal_id IN ids
GROUP BY journal_id`, as the (key, count) pair list that `dict(...)` is
built from. -/
def batchedSharesMap (db : DB) (ids : List Nat) : List (Nat × Nat) :=
  (dedupKeys ((sharesPageRows db ids).map (fun s => s.journal_id))).map
    (fun jid =>
      (jid, ((sharesPageRows db ids).filter (fun s => s.journal_id == jid)).length))

/-- `shares_map.get(journal.id, 0)`. -/
def mapGetD (m : List (Nat × Nat)) (jid d : Nat) : Nat :=
  match m.find? (fun p => p.1 == jid) with
  | some p => p.2
  | none => d

/-- Share count of one journal of the page under the batched strategy. -/
def batchedShareCount (db : DB) (ids : List Nat) (jid : Nat) : Nat :=
  mapGetD (batchedSharesMap db ids) jid 0

/-- The batched favorites query of the feed endpoints: journal ids of the
caller's favorites restricted to the page
(`SELECT journal_id FROM journal_favorites WHERE journal_id IN ids AND
user_id = caller`). -/
def batchedFavoriteIds (db : DB) (ids : List Nat) (uid : Nat) : List Nat :=
  (db.journal_favorites.filter
    (fun f => ids.contains f.journal_id && f.user_id == uid)).map
    (fun f => f.journal_id)

/-- `journal.id in favorite_journal_ids` under the batched strategy. -/
def batchedIsFavorite (db : DB) (ids : List Nat) (uid jid : Nat) : Bool :=
  (batchedFavoriteIds db ids uid).contains jid

/-- Feed entry assembly shared by every feed endpoint, parametrised by the
share-count and favorite values the endpoint computed for this journal. -/
def buildFeedEntry (db : DB) (shareCount : Nat) (isFav : Bool)
    (j : Journal) : JournalFeedResponse :=
  { id := j.id
    user := feedUserOf db j
    image_url := j.image_url
    title := j.title
    body_snippet := j.body_snippet
    html_content := j.html_content
    created_at := j.created_at
    comment_count := commentCountOf db j.id
    share_count := shareCount
    is_favorite := isFav
    tags := tagsOf db j.id
    is_private := j.is_private }

/-- Newest-first stable sort on `created_at`.  `get_all_journals` calls
`feed.sort(key=created_at, reverse=True)` after each append; the net
result equals one final stable descending sort of the appended entries
(each intermediate stable sort keeps equal keys in insertion order, and
the last call sorts the whole list). -/
def sortByCreatedDesc (l : List JournalFeedResponse) : List JournalFeedResponse :=
  l.mergeSort (fun a b => b.created_at ≤ a.created_at)

/-! ## Journal router handlers (`routers/journal_routes.py`) -/

/-- The tag loop of `create_journal`: for each supplied name, look the tag
up by name (pending tags added earlier in the same loop are visible — the
session autoflushes before each `SELECT`), create it with the next
auto-increment id when absent, and collect the tag objects appended to
`journal.tags`.  Returns (tag table after the loop, appended tags in
order, next free tag id). -/
def addTags : List String → List Tag → Nat → List Tag × List Tag × Nat
  | [], tags, nid => (tags, [], nid)
  | name :: rest, tags, nid =>
    match tags.find? (fun t => t.name == name) with
    | some t =>
      let r := addTags rest tags nid
      (r.1, t :: r.2.1, r.2.2)
    | none =>
      let t : Tag := ⟨nid, name⟩
      let r := addTags rest (tags ++ [t]) (nid + 1)
      (r.1, t :: r.2.1, r.2.2)

/-- `POST /journals/create`: persist a new `Journal` owned by the caller,
creating or reusing each supplied tag name and associating it.  `newId`
is the journal's auto-increment id, `nextTagId` the next free tag id,
`now` the creation timestamp. -/
def create_journal (journal_data : JournalCreate) (db : DB) (caller : User)
    (newId nextTagId now : Nat) : DB × Journal :=
  let r := addTags journal_data.tags db.tags nextTagId
  let journal : Journal :=
    { id := newId
      user_id := caller.id
      title := journal_data.title
      body_snippet := journal_data.body_snippet
      html_content := journal_data.html_content
      is_private := journal_data.is_private
      image_url := journal_data.image_url
      is_deleted := false
      deleted_at := none
      created_at := now
      updated_at := now }
  let links := r.2.1.map (fun t => (⟨newId, t.id⟩ : JournalTagLink))
  ({ db with
      journals := db.journals ++ [journal]
      tags := r.1
      journal_tag_link := db.journal_tag_link ++ links },
   journal)

/-- `GET /journals/get-all`: non-deleted journals, offset/limit in table
order (no SQL `ORDER BY`), batched share counts and favorite flags over
the page, entries sorted newest-first by the in-loop Python sort. -/
def get_all_journals (db : DB) (caller : User) (skip limit : Nat) :
    List JournalFeedResponse :=
  let journals := ((db.journals.filter (fun j => !j.is_deleted)).drop skip).take limit
  let ids := journals.map (fun j => j.id)
  sortByCreatedDesc (journals.map (fun j =>
    buildFeedEntry db (batchedShareCount db ids j.id)
      (batchedIsFavorite db ids caller.id j.id) j))

/-- `GET /journals/tags/{tag_name}`: look the tag up by exact name
(404 when absent), then project every associated journal — no deletion
filter, no pagination — recomputing share count and favorite flag
per journal. -/
def get_journals_by_tag (tag_name : String) (db : DB) (caller : User) :
    Except HTTPError (List JournalFeedResponse) :=
  match db.tags.find? (fun t => t.name == tag_name) with
  | none => .error ⟨404, "Tag not found"⟩
  | some tag =>
    let journals := (db.journal_tag_link.filter (fun l => l.tag_id == tag.id)).filterMap
      (fun l => db.journals.find? (fun j => j.id == l.journal_id))
    .ok (journals.map (fun j =>
      buildFeedEntry db (directShareCount db j.id)
        (directIsFavorite db caller.id j.id) j))

/-- Feed assembly shared verbatim by `get_user_journals`,
`get_journals_by_user` and `get_my_journals`: non-deleted journals of one
user, ordered newest-first by SQL `ORDER BY created_at DESC` before
offset/limit, aggregates batched over the page. -/
def userFeed (db : DB) (owner_id : Nat) (caller : User) (skip limit : Nat) :
    List JournalFeedResponse :=
  let journals :=
    ((((db.journals.filter (fun j => !j.is_deleted && j.user_id == owner_id)).mergeSort
        (fun a b => b.created_at ≤ a.created_at)).drop skip).take limit)
  let ids := journals.map (fun j => j.id)
  journals.map (fun j =>
    buildFeedEntry db (batchedShareCount db ids j.id)
      (batchedIsFavorite db ids caller.id j.id) j)

/-- `GET /journals/get-user-journals`: the caller's own feed. -/
def get_user_journals (db : DB) (caller : User) (skip limit : Nat) :
    List JournalFeedResponse :=
  userFeed db caller.id caller skip limit

/-- `GET /journals/{journal_id}` (public): primary-key fetch; a missing or
soft-deleted journal is rejected identically as not-found. -/
def get_journal_by_id (journal_id : Nat) (db : DB) : Except HTTPError Journal :=
  match sessionGetJournal db journal_id with
  | none => .error ⟨404, "Journal not found"⟩
  | some journal =>
    if journal.is_deleted then .error ⟨404, "Journal not found"⟩
    else .ok journal

/-- `GET /journals/user/{user_id}`: another user's feed, no ownership
check. -/
def get_journals_by_user (user_id : Nat) (db : DB) (caller : User)
    (skip limit : Nat) : List JournalFeedResponse :=
  userFeed db user_id caller skip limit

/-- `GET /journals/my`: duplicate route of `get-user-journals`. -/
def get_my_journals (db : DB) (caller : User) (skip limit : Nat) :
    List JournalFeedResponse :=
  userFeed db caller.id caller skip limit

/-- The `setattr` loop of `update_journal` over
`journal_data.model_dump(exclude_unset=True)`: each field explicitly
present in the payload overwrites, absent fields are skipped. -/
def applyUpdate (journal : Journal) (d : JournalUpdate) : Journal :=
  { journal with
      title := d.title.getD journal.title
      body_snippet := d.body_snippet.getD journal.body_snippet
      html_content := d.html_content.getD journal.html_content
      is_private := d.is_private.getD journal.is_private
      image_url := d.image_url.getD journal.image_url }

/-- `PUT /journals/{journal_id}`: primary-key fetch; a missing journal or
one owned by another user raises 404 before any write; otherwise the
supplied fields overwrite and the row is committed.  Returns the
post-state `DB` (unchanged on the error path) and the handler outcome. -/
def update_journal (journal_id : Nat) (journal_data : JournalUpdate)
    (db : DB) (caller : User) : DB × Except HTTPError Journal :=
  match sessionGetJournal db journal_id with
  | none => (db, .error ⟨404, "Journal not found"⟩)
  | some journal =>
    if journal.user_id ≠ caller.id then
      (db, .error ⟨404, "Journal not found"⟩)
    else
      let updated := applyUpdate journal journal_data
      let journals := db.journals.map
        (fun j => if j.id == journal_id then updated else j)
      ({ db with journals := journals }, .ok updated)

/-- `DELETE /journals/{journal_id}`: primary-key fetch; a missing journal
or one owned by another user raises 404 before any write; otherwise the
handler sets `is_deleted = True` and assigns the *string literal*
`"CURRENT_TIMESTAMP"` to `deleted_at` (the source line is
`journal.deleted_at = "CURRENT_TIMESTAMP"`). -/
def delete_journal (journal_id : Nat) (db : DB) (caller : User) :
    DB × Except HTTPError Unit :=
  match sessionGetJournal db journal_id with
  | none => (db, .error ⟨404, "Journal not found"⟩)
  | some journal =>
    if journal.user_id ≠ caller.id then
      (db, .error ⟨404, "Journal not found"⟩)
    else
      let deleted := { journal with
        is_deleted := true
        deleted_at := some (.text "CURRENT_TIMESTAMP") }
      let journals := db.journals.map
        (fun j => if j.id == journal_id then deleted else j)
      ({ db with journals := journals }, .ok ())

/-- `POST /journals/journal-reactions`: insert a `JournalReactions` row
with `user_id` forced to the caller. -/
def create_journal_reaction (journal_reaction_data : JournalReactionCreate)
    (db : DB) (caller : User) (newId now : Nat) : DB × JournalReactions :=
  let row : JournalReactions :=
    { id := newId
      journal_id := journal_reaction_data.journal_id
      user_id := caller.id
      reaction_type := journal_reaction_data.reaction_type
      created_at := now }
  ({ db with journal_reactions := db.journal_reactions ++ [row] }, row)

/-- `GET /journals/journal-reactions/{journal_id}` (no auth dependency):
all reaction rows of one journal. -/
def get_journal_reactions (journal_id : Nat) (db : DB) : List JournalReactions :=
  db.journal_reactions.filter (fun r => r.journal_id == journal_id)

/-- `POST /journals/journal-favorites`: insert a `JournalFavorites` row
with `user_id` forced to the caller (no duplicate check). -/
def create_journal_favorite (journal_favorite_data : JournalFavoriteCreate)
    (db : DB) (caller : User) (newId now : Nat) : DB × JournalFavorites :=
  let row : JournalFavorites :=
    { id := newId
      journal_id := journal_favorite_data.journal_id
      user_id := caller.id
      created_at := now }
  ({ db with journal_favorites := db.journal_favorites ++ [row] }, row)

/-- `GET /journals/journal-favorites`: the caller's favorite rows. -/
def get_journal_favorites (db : DB) (caller : User) : List JournalFavorites :=
  db.journal_favorites.filter (fun f => f.user_id == caller.id)

/-- `POST /journals/journal-shares`: insert a `JournalShares` row with
`user_id` forced to the caller. -/
def create_journal_share (journal_share_data : JournalShareCreate)
    (db : DB) (caller : User) (newId now : Nat) : DB × JournalShares :=
  let row : JournalShares :=
    { id := newId
      journal_id := journal_share_data.journal_id
      user_id := caller.id
      share_type := journal_share_data.share_type
      shared_at := now }
  ({ db with journal_shares := db.journal_shares ++ [row] }, row)

/-- `POST /journals/journal-reports`: insert a `JournalReports` row with
`reporter_id` forced to the caller and `status` defaulted to
`"pending"`. -/
def create_journal_report (journal_report_data : JournalReportCreate)
    (db : DB) (caller : User) (newId now : Nat) : DB × JournalReports :=
  let row : JournalReports :=
    { id := newId
      journal_id := journal_report_data.journal_id
      reporter_id := caller.id
      reason := journal_report_data.reason
      status := "pending"
      created_at := now
      resolved_at := none }
  ({ db with journal_reports := db.journal_reports ++ [row] }, row)

/-! ## Route surface: which handlers declare the auth dependency -/

/-- The routes of the journal router. -/
inductive JournalEndpoint where
  | createJournal
  | getAllJournals
  | getJournalsByTag
  | getUserJournals
  | getJournalById
  | getJournalsByUser
  | getMyJournals
  | updateJournal
  | deleteJournal
  | createJournalReaction
  | getJournalReactions
  | createJournalFavorite
  | getJournalFavorites
  | createJournalShare
  | createJournalReport
deriving DecidableEq, Repr

/-- Transcription of each handler's signature in
`routers/journal_routes.py`: `true` iff the handler declares the
`Depends(` `get_current_user)` parameter.  `get_journal_by_id` and
`get_journal_reactions` take only `journal_id` and the session. -/
def requiresAuth : JournalEndpoint → Bool
  | .getJournalById => false
  | .getJournalReactions => false
  | _ => true

/-- FastAPI dependency semantics for a handler guarded by
`get_current_user`: when the dependency fails, its `HTTPException` is
returned and the handler body never runs (the database is untouched). -/
def runProtected {α : Type} (authResult : Except HTTPError User)
    (handler : User → DB × Except HTTPError α) (db : DB) :
    DB × Except HTTPError α :=
  match authResult with
  | .error e => (db, .error e)
  | .ok user => handler user

/-! ## Helper lemmas -/

/-- In a list whose `key` images are pairwise distinct, searching for the
key of a member finds exactly that member. -/
theorem find?_key_of_nodup {α : Type} (key : α → Nat) (l : List α) (a : α)
    (hn : (l.map key).Nodup) (ha : a ∈ l) :
    l.find? (fun x => key x == key a) = some a := by
  induction l with
  | nil => cases ha
  | cons x xs ih =>
    rcases List.mem_cons.mp ha with h | h
    · subst h
      simp [List.find?]
    · have hx : key x ≠ key a := by
        intro hk
        have : key a ∈ xs.map key := List.mem_map_of_mem key h
        rw [← hk] at this
        exact (List.nodup_cons.mp (by simpa using hn)).1 this
      have hnx : (xs.map key).Nodup := (List.nodup_cons.mp (by simpa using hn)).2
      have hb : (key x == key a) = false := beq_eq_false_iff_ne.mpr hx
      simp only [List.find?, hb]
      exact ih hnx h

/-- A member of a list with pairwise-distinct `id`s is found by
`sessionGetJournal` at its own id. -/
theorem sessionGetJournal_of_mem (db : DB) (j : Journal)
    (hn : (db.journals.map (fun x => x.id)).Nodup) (hj : j ∈ db.journals) :
    sessionGetJournal db j.id = some j := by
  unfold sessionGetJournal
  exact find?_key_of_nodup (fun x => x.id) db.journals j hn hj

/-- Two members of a list with pairwise-distinct `id`s sharing an id are
equal. -/
theorem journal_eq_of_id_eq (db : DB) (hn : (db.journals.map (fun x => x.id)).Nodup)
    {a b : Journal} (ha : a ∈ db.journals) (hb : b ∈ db.journals)
    (hid : a.id = b.id) : a = b :=
  List.inj_on_of_nodup_map hn ha hb hid

/-! ## Concrete fixtures used by witnesses and counterexamples -/

/-- A user with id 1. -/
def cAlice : User := ⟨1, "alice", none⟩

/-- A second user with id 2. -/
def cBob : User := ⟨2, "bob", none⟩

/-- A live (non-deleted) journal, id 1, owned by user 1. -/
def cLiveJournal : Journal :=
  ⟨1, 1, "hello", none, none, false, none, false, none, 5, 5⟩

/-- A soft-deleted journal, id 2, owned by user 1. -/
def cDeletedJournal : Journal :=
  ⟨2, 1, "gone", none, none, false, none, true, none, 6, 6⟩

/-- The tag `"t"`, associated with both fixture journals. -/
def cTagT : Tag := ⟨1, "t"⟩

/-- Fixture database: two users, a live and a soft-deleted journal, the
tag `"t"` linked to both journals. -/
def cDB : DB :=
  ⟨[cAlice, cBob], [cLiveJournal, cDeletedJournal], [cTagT],
   [⟨1, 1⟩, ⟨2, 1⟩], [], [], [], [], []⟩

/-! ## Claim theorems -/

/-- C2: for every request body and every authenticated caller, the rows
stored by create-reaction, create-favorite, create-share and
create-report carry the caller's id in their actor field (`user_id`,
`reporter_id` for reports); the body schemas (`JournalReactionCreate`,
`JournalFavoriteCreate`, `JournalShareCreate`, `JournalReportCreate`)
carry no actor-id field, and the quantification over all bodies shows the
stored actor id is independent of the body content. -/
theorem actor_fields_forced_to_caller :
    ∀ (db : DB) (caller : User) (newId now : Nat)
      (rd : JournalReactionCreate) (fd : JournalFavoriteCreate)
      (sd : JournalShareCreate) (pd : JournalReportCreate),
      (create_journal_reaction rd db caller newId now).2.user_id = caller.id ∧
      (create_journal_favorite fd db caller newId now).2.user_id = caller.id ∧
      (create_journal_share sd db caller newId now).2.user_id = caller.id ∧
      (create_journal_report pd db caller newId now).2.reporter_id = caller.id :=
  fun _ _ _ _ _ _ _ _ => ⟨rfl, rfl, rfl, rfl⟩

/-- C3: `get_current_user` yields a 401 error whenever the scheme is not
case-insensitively `"bearer"`, the token fails to decode, the claims lack
a `sub`, the `sub` does not parse as an integer, or no user row has the
parsed id; otherwise it returns the loaded user record. -/
theorem get_current_user_auth_spec (scheme : String) (decoded : DecodeResult)
    (db : DB) :
    (scheme.toLower ≠ "bearer" →
      ∃ e, get_current_user scheme decoded db = .error e ∧ e.status_code = 401) ∧
    (∀ msg, decoded = .error msg →
      ∃ e, get_current_user scheme decoded db = .error e ∧ e.status_code = 401) ∧
    (∀ claims, decoded = .ok claims → claimsGet claims "sub" = none →
      ∃ e, get_current_user scheme decoded db = .error e ∧ e.status_code = 401) ∧
    (∀ claims s, decoded = .ok claims → claimsGet claims "sub" = some s →
      s.toInt? = none →
      ∃ e, get_current_user scheme decoded db = .error e ∧ e.status_code = 401) ∧
    (∀ claims s uid, decoded = .ok claims → claimsGet claims "sub" = some s →
      s.toInt? = some uid →
      db.users.find? (fun u => (u.id : Int) == uid) = none →
      ∃ e, get_current_user scheme decoded db = .error e ∧ e.status_code = 401) ∧
    (∀ claims s uid u, scheme.toLower = "bearer" → decoded = .ok claims →
      claimsGet claims "sub" = some s → s.toInt? = some uid →
      db.users.find? (fun u => (u.id : Int) == uid) = some u →
      get_current_user scheme decoded db = .ok u) := by
  by_cases hs : scheme.toLower = "bearer"
  · refine ⟨fun h => absurd hs h, ?_, ?_, ?_, ?_, ?_⟩
    · rintro msg rfl
      exact ⟨⟨401, msg⟩, by simp [get_current_user, hs], rfl⟩
    · rintro claims rfl hsub
      exact ⟨⟨401, "Invalid token subject"⟩, by simp [get_current_user, hs, hsub], rfl⟩
    · rintro claims s rfl hsub hint
      by_cases hempty : s = ""
      · exact ⟨⟨401, "Invalid token subject"⟩,
          by simp [get_current_user, hs, hsub, hempty], rfl⟩
      · exact ⟨⟨401, "Invalid token subject"⟩,
          by simp [get_current_user, hs, hsub, hempty, hint], rfl⟩
    · rintro claims s uid rfl hsub hint hfind
      have hempty : s ≠ "" := by
        intro h
        subst h
        have hnone : ("" : String).toInt? = none := rfl
        rw [hnone] at hint
        cases hint
      exact ⟨⟨401, "User not found"⟩,
        by simp [get_current_user, hs, hsub, hempty, hint, hfind], rfl⟩
    · rintro claims s uid u _ rfl hsub hint hfind
      have hempty : s ≠ "" := by
        intro h
        subst h
        have hnone : ("" : String).toInt? = none := rfl
        rw [hnone] at hint
        cases hint
      simp [get_current_user, hs, hsub, hempty, hint, hfind]
  · have herr : ∃ e, get_current_user scheme decoded db = .error e ∧
        e.status_code = 401 :=
      ⟨⟨401, "Invalid authentication scheme"⟩, by simp [get_current_user, hs], rfl⟩
    exact ⟨fun _ => herr, fun _ _ => herr, fun _ _ _ => herr,
      fun _ _ _ _ _ => herr, fun _ _ _ _ _ _ _ => herr,
      fun _ _ _ _ h => absurd h hs⟩

/-- Witness for C3 at a concrete input: a token that fails to decode is
rejected with a 401 error. -/
theorem get_current_user_auth_spec_witness :
    ((.error "bad" : DecodeResult) = .error "bad") ∧
    (∃ e, get_current_user "Bearer" (.error "bad") cDB = .error e ∧
      e.status_code = 401) :=
  ⟨rfl, (get_current_user_auth_spec "Bearer" (.error "bad") cDB).2.1 "bad" rfl⟩

/-- C6: update and delete on a journal owned by a different user return
the same 404 "Journal not found" raised for a missing journal, and the
database (hence the target row, in particular its `is_deleted` flag) is
returned unchanged. -/
theorem update_delete_foreign_owner_404 (db : DB) (caller : User)
    (d : JournalUpdate) (j : Journal)
    (hn : (db.journals.map (fun x => x.id)).Nodup) (hj : j ∈ db.journals)
    (hown : j.user_id ≠ caller.id) :
    update_journal j.id d db caller = (db, .error ⟨404, "Journal not found"⟩) ∧
    delete_journal j.id db caller = (db, .error ⟨404, "Journal not found"⟩) := by
  have hfind := sessionGetJournal_of_mem db j hn hj
  constructor
  · unfold update_journal
    rw [hfind]
    simp [hown]
  · unfold delete_journal
    rw [hfind]
    simp [hown]

/-- Witness for C6 at a concrete input: user 2 updating/deleting user 1's
journal gets 404 and the database is unchanged. -/
theorem update_delete_foreign_owner_404_witness :
    ((cDB.journals.map (fun x => x.id)).Nodup ∧ cLiveJournal ∈ cDB.journals ∧
      cLiveJournal.user_id ≠ cBob.id) ∧
    (update_journal cLiveJournal.id {} cDB cBob =
      (cDB, .error ⟨404, "Journal not found"⟩) ∧
     delete_journal cLiveJournal.id cDB cBob =
      (cDB, .error ⟨404, "Journal not found"⟩)) :=
  ⟨⟨by decide, by decide, by decide⟩,
   update_delete_foreign_owner_404 cDB cBob {} cLiveJournal
     (by decide) (by decide) (by decide)⟩

/-- C10: in update and delete, the 404 is raised exactly when no journal
row with the requested id exists that is owned by the caller —
`is_deleted` plays no role, so both operations succeed on a soft-deleted
journal of the caller's. -/
theorem update_delete_404_iff (db : DB) (caller : User) (jid : Nat)
    (d : JournalUpdate) (hn : (db.journals.map (fun x => x.id)).Nodup) :
    ((∃ e, (update_journal jid d db caller).2 = .error e) ↔
      ¬ ∃ j, j ∈ db.journals ∧ j.id = jid ∧ j.user_id = caller.id) ∧
    ((∃ e, (delete_journal jid db caller).2 = .error e) ↔
      ¬ ∃ j, j ∈ db.journals ∧ j.id = jid ∧ j.user_id = caller.id) := by
  cases h : db.journals.find? (fun x => x.id == jid) with
  | none =>
    have hno : ¬ ∃ j, j ∈ db.journals ∧ j.id = jid ∧ j.user_id = caller.id := by
      rintro ⟨j, hjmem, hjid, -⟩
      have h2 := List.find?_eq_none.mp h j hjmem
      simp [hjid] at h2
    constructor <;>
      · simp only [update_journal, delete_journal, sessionGetJournal, h]
        exact ⟨fun _ => hno, fun _ => ⟨⟨404, "Journal not found"⟩, rfl⟩⟩
  | some j0 =>
    have hmem : j0 ∈ db.journals := List.mem_of_find?_eq_some h
    have hid : j0.id = jid := by
      have h2 := List.find?_some h
      simpa using h2
    by_cases howner : j0.user_id = caller.id
    · have hyes : ∃ j, j ∈ db.journals ∧ j.id = jid ∧ j.user_id = caller.id :=
        ⟨j0, hmem, hid, howner⟩
      constructor <;>
        · simp only [update_journal, delete_journal, sessionGetJournal, h, howner]
          exact ⟨fun ⟨e, he⟩ => by simp [howner] at he,
                 fun hno => (hno hyes).elim⟩
    · have hno : ¬ ∃ j, j ∈ db.journals ∧ j.id = jid ∧ j.user_id = caller.id := by
        rintro ⟨j, hjmem, hjid, hjuid⟩
        have : j = j0 :=
          journal_eq_of_id_eq db hn hjmem hmem (hjid.trans hid.symm)
        subst this
        exact howner hjuid
      constructor <;>
        · simp only [update_journal, delete_journal, sessionGetJournal, h]
          exact ⟨fun _ => hno,
                 fun _ => ⟨⟨404, "Journal not found"⟩, by simp [howner]⟩⟩

/-- Witness for C10 at a concrete input: the caller's own soft-deleted
journal (id 2, `is_deleted = true`) is not rejected — neither operation
returns an error. -/
theorem update_delete_404_iff_witness :
    (cDB.journals.map (fun x => x.id)).Nodup ∧
    ¬ (∃ e, (update_journal 2 {} cDB cAlice).2 = .error e) ∧
    ¬ (∃ e, (delete_journal 2 cDB cAlice).2 = .error e) := by
  have h := update_delete_404_iff cDB cAlice 2 {} (by decide)
  refine ⟨by decide, ?_, ?_⟩
  · intro he
    exact (h.1.mp he) ⟨cDeletedJournal, by decide, by decide, by decide⟩
  · intro he
    exact (h.2.mp he) ⟨cDeletedJournal, by decide, by decide, by decide⟩

/-- C5: for a journal owned by the caller, update returns the merged row
in which every field explicitly present in the payload is overwritten
with the supplied value, every field absent from the payload keeps its
prior value, and the fields outside the update schema (`id`, `user_id`,
`is_deleted`, `deleted_at`, `created_at`, `updated_at`) are untouched. -/
theorem update_journal_partial_frame (db : DB) (caller : User)
    (d : JournalUpdate) (j : Journal)
    (hn : (db.journals.map (fun x => x.id)).Nodup) (hj : j ∈ db.journals)
    (hown : j.user_id = caller.id) :
    (update_journal j.id d db caller).2 = .ok (applyUpdate j d) ∧
    (∀ v, d.title = some v → (applyUpdate j d).title = v) ∧
    (d.title = none → (applyUpdate j d).title = j.title) ∧
    (∀ v, d.body_snippet = some v → (applyUpdate j d).body_snippet = v) ∧
    (d.body_snippet = none → (applyUpdate j d).body_snippet = j.body_snippet) ∧
    (∀ v, d.html_content = some v → (applyUpdate j d).html_content = v) ∧
    (d.html_content = none → (applyUpdate j d).html_content = j.html_content) ∧
    (∀ v, d.is_private = some v → (applyUpdate j d).is_private = v) ∧
    (d.is_private = none → (applyUpdate j d).is_private = j.is_private) ∧
    (∀ v, d.image_url = some v → (applyUpdate j d).image_url = v) ∧
    (d.image_url = none → (applyUpdate j d).image_url = j.image_url) ∧
    (applyUpdate j d).id = j.id ∧
    (applyUpdate j d).user_id = j.user_id ∧
    (applyUpdate j d).is_deleted = j.is_deleted ∧
    (applyUpdate j d).deleted_at = j.deleted_at ∧
    (applyUpdate j d).created_at = j.created_at ∧
    (applyUpdate j d).updated_at = j.updated_at := by
  have hfind := sessionGetJournal_of_mem db j hn hj
  refine ⟨?_, ?_, ?_, ?_, ?_, ?_, ?_, ?_, ?_, ?_, ?_, rfl, rfl, rfl, rfl, rfl, rfl⟩
  · unfold update_journal
    rw [hfind]
    simp [hown]
  all_goals first
    | exact fun v hv => by simp [applyUpdate, hv]
    | exact fun hv => by simp [applyUpdate, hv]

/-- Witness for C5 at a concrete input: updating only the title of the
caller's journal succeeds and returns the merged row. -/
theorem update_journal_partial_frame_witness :
    ((cDB.journals.map (fun x => x.id)).Nodup ∧ cLiveJournal ∈ cDB.journals ∧
      cLiveJournal.user_id = cAlice.id) ∧
    (update_journal cLiveJournal.id { title := some "new" } cDB cAlice).2 =
      .ok (applyUpdate cLiveJournal { title := some "new" }) :=
  ⟨⟨by decide, by decide, by decide⟩,
   (update_journal_partial_frame cDB cAlice { title := some "new" } cLiveJournal
     (by decide) (by decide) (by decide)).1⟩

/-- C7 (code defect): deleting an owned journal does set
`is_deleted = true`, but `deleted_at` receives the *string literal*
`"CURRENT_TIMESTAMP"` (`journal.deleted_at = "CURRENT_TIMESTAMP"` in the
handler), which is distinct from every real timestamp value — the spec's
"stamp `deleted_at` with the current time" is not what the code stores. -/
theorem delete_journal_placeholder_timestamp_bug :
    ((delete_journal 1 cDB cAlice).1.journals.map (fun j => j.is_deleted))
      = [true, true] ∧
    ((delete_journal 1 cDB cAlice).1.journals.map (fun j => j.deleted_at))
      = [some (.text "CURRENT_TIMESTAMP"), none] ∧
    (∀ t : Nat, (some (DateValue.text "CURRENT_TIMESTAMP") : Option DateValue)
      ≠ some (.timestamp t)) := by
  refine ⟨by decide, by decide, ?_⟩
  intro t h
  simp at h

/-- C9 counterexample: the list-reactions route declares no
authentication dependency in its handler signature, yet it is not the
get-by-id route — so get-by-id is not the only endpoint reachable
without bearer authentication. -/
theorem reactions_list_public_counterexample :
    requiresAuth .getJournalReactions = false ∧
    JournalEndpoint.getJournalReactions ≠ JournalEndpoint.getJournalById :=
  ⟨rfl, by decide⟩

/-- C9 amended: a journal-router operation is reachable without bearer
authentication exactly when it is get-journal-by-id **or**
list-journal-reactions; every other operation declares the
`get_current_user` dependency, and a failed dependency short-circuits
the handler, returning the dependency's unauthorized error with the
database untouched. -/
theorem auth_surface_amended :
    (∀ e : JournalEndpoint,
      requiresAuth e = false ↔
        (e = JournalEndpoint.getJournalById ∨
         e = JournalEndpoint.getJournalReactions)) ∧
    (∀ (α : Type) (err : HTTPError)
      (handler : User → DB × Except HTTPError α) (db : DB),
      runProtected (.error err) handler db = (db, .error err)) :=
  ⟨fun e => by cases e <;> simp [requiresAuth], fun _ _ _ _ => rfl⟩

/-- Membership is invariant under `dedupKeys`. -/
theorem mem_dedupKeys (l : List Nat) (x : Nat) : x ∈ dedupKeys l ↔ x ∈ l := by
  induction l with
  | nil => simp [dedupKeys]
  | cons y ys ih =>
    simp only [dedupKeys, List.mem_cons, List.mem_filter, ih, decide_eq_true_eq]
    by_cases hxy : x = y
    · simp [hxy]
    · simp [hxy]

/-- Looking a present key up in a `(key, f key)` table finds its row. -/
theorem find?_map_key (keys : List Nat) (f : Nat → Nat) (jid : Nat)
    (h : jid ∈ keys) :
    (keys.map (fun k => (k, f k))).find? (fun p => p.1 == jid)
      = some (jid, f jid) := by
  induction keys with
  | nil => cases h
  | cons k ks ih =>
    by_cases hk : k = jid
    · subst hk
      simp [List.find?]
    · have hb : ((k, f k).1 == jid) = false := beq_eq_false_iff_ne.mpr hk
      rcases List.mem_cons.mp h with h1 | h1
      · exact absurd h1.symm hk
      · simp only [List.map, List.find?, hb]
        exact ih h1

/-- For a journal of the page, restricting the page's share rows to that
journal gives exactly the journal's share rows. -/
theorem sharesPageRows_filter_collapse (db : DB) (ids : List Nat) (jid : Nat)
    (h : jid ∈ ids) :
    (sharesPageRows db ids).filter (fun s => s.journal_id == jid)
      = db.journal_shares.filter (fun s => s.journal_id == jid) := by
  unfold sharesPageRows
  rw [List.filter_filter]
  apply List.filter_congr
  intro s _
  by_cases hs : s.journal_id = jid
  · subst hs
    simp [h]
  · have hb : (s.journal_id == jid) = false := beq_eq_false_iff_ne.mpr hs
    simp [hb]

/-- C8: for every journal of a page and every caller, the batched
grouped-query aggregates used by the list-all / list-by-user feed
endpoints (`batchedShareCount`, `batchedIsFavorite`) coincide with the
per-journal direct-query aggregates used by the tag-listing endpoint
(`directShareCount`, `directIsFavorite`) over the same database state. -/
theorem batched_aggregates_eq_direct (db : DB) (ids : List Nat)
    (uid jid : Nat) (h : jid ∈ ids) :
    batchedShareCount db ids jid = directShareCount db jid ∧
    batchedIsFavorite db ids uid jid = directIsFavorite db uid jid := by
  constructor
  · unfold batchedShareCount batchedSharesMap mapGetD
    by_cases hmem :
        jid ∈ (sharesPageRows db ids).map (fun s => s.journal_id)
    · have hded := (mem_dedupKeys _ _).mpr hmem
      rw [find?_map_key _ _ _ hded]
      rw [sharesPageRows_filter_collapse db ids jid h]
      rfl
    · have hfind :
          ((dedupKeys ((sharesPageRows db ids).map (fun s => s.journal_id))).map
            (fun k =>
              (k, ((sharesPageRows db ids).filter
                (fun s => s.journal_id == k)).length))).find?
            (fun p => p.1 == jid) = none := by
        apply List.find?_eq_none.mpr
        intro p hp
        rcases List.mem_map.mp hp with ⟨k, hk, rfl⟩
        simp only [beq_iff_eq]
        intro hkj
        subst hkj
        exact hmem ((mem_dedupKeys _ _).mp hk)
      rw [hfind]
      have hdir : db.journal_shares.filter (fun s => s.journal_id == jid) = [] := by
        rw [← sharesPageRows_filter_collapse db ids jid h]
        apply List.eq_nil_iff_forall_not_mem.mpr
        intro s hs
        rcases List.mem_filter.mp hs with ⟨hrow, hbeq⟩
        have hsj : s.journal_id = jid := by simpa using hbeq
        exact hmem (List.mem_map.mpr ⟨s, hrow, hsj⟩)
      unfold directShareCount
      rw [hdir]
      rfl
  · apply Bool.eq_iff_iff.mpr
    unfold batchedIsFavorite batchedFavoriteIds directIsFavorite
    constructor
    · intro hb
      have hjid : jid ∈ (db.journal_favorites.filter
          (fun f => ids.contains f.journal_id && f.user_id == uid)).map
          (fun f => f.journal_id) := List.elem_iff.mp hb
      rcases List.mem_map.mp hjid with ⟨f, hf, rfl⟩
      rcases List.mem_filter.mp hf with ⟨hfav, hcond⟩
      rw [Bool.and_eq_true] at hcond
      obtain ⟨-, huid⟩ := hcond
      apply List.find?_isSome.mpr
      exact ⟨f, hfav, by simp [huid]⟩
    · intro hd
      rcases List.find?_isSome.mp hd with ⟨f, hfav, hcond⟩
      rw [Bool.and_eq_true] at hcond
      obtain ⟨hjid, huid⟩ := hcond
      have hfj : f.journal_id = jid := by simpa using hjid
      apply List.elem_iff.mpr
      apply List.mem_map.mpr
      refine ⟨f, List.mem_filter.mpr ⟨hfav, ?_⟩, hfj⟩
      simp [hfj, h, huid]

/-- Witness for C8 at a concrete input: on the fixture database the two
strategies agree for journal 1 on the page `[1, 2]`. -/
theorem batched_aggregates_eq_direct_witness :
    (1 ∈ [1, 2]) ∧
    (batchedShareCount cDB [1, 2] 1 = directShareCount cDB 1 ∧
     batchedIsFavorite cDB [1, 2] 1 1 = directIsFavorite cDB 1 1) :=
  ⟨by decide, batched_aggregates_eq_direct cDB [1, 2] 1 1 (by decide)⟩

/-- Every entry of the get-all feed stems from a stored non-deleted
journal with the same id. -/
theorem mem_get_all_source (db : DB) (caller : User) (skip limit : Nat)
    (e : JournalFeedResponse) (he : e ∈ get_all_journals db caller skip limit) :
    ∃ j', j' ∈ db.journals ∧ j'.is_deleted = false ∧ e.id = j'.id := by
  simp only [get_all_journals, sortByCreatedDesc] at he
  have he2 := (List.mergeSort_perm _ _).mem_iff.mp he
  rcases List.mem_map.mp he2 with ⟨j', hj', rfl⟩
  have h1 : j' ∈ db.journals.filter (fun j => !j.is_deleted) :=
    List.mem_of_mem_drop (List.mem_of_mem_take hj')
  rcases List.mem_filter.mp h1 with ⟨hmem, hcond⟩
  refine ⟨j', hmem, ?_, rfl⟩
  simpa using hcond

/-- Every entry of the shared per-user feed stems from a stored
non-deleted journal with the same id. -/
theorem mem_userFeed_source (db : DB) (owner_id : Nat) (caller : User)
    (skip limit : Nat) (e : JournalFeedResponse)
    (he : e ∈ userFeed db owner_id caller skip limit) :
    ∃ j', j' ∈ db.journals ∧ j'.is_deleted = false ∧ e.id = j'.id := by
  simp only [userFeed] at he
  rcases List.mem_map.mp he with ⟨j', hj', rfl⟩
  have h1 : j' ∈ (db.journals.filter
      (fun j => !j.is_deleted && j.user_id == owner_id)).mergeSort
      (fun a b => b.created_at ≤ a.created_at) :=
    List.mem_of_mem_drop (List.mem_of_mem_take hj')
  have h2 := (List.mergeSort_perm _ _).mem_iff.mp h1
  rcases List.mem_filter.mp h2 with ⟨hmem, hcond⟩
  rw [Bool.and_eq_true] at hcond
  refine ⟨j', hmem, ?_, rfl⟩
  simpa using hcond.1

/-- C1 counterexample: the claim includes the tag-listing operation, but
`get_journals_by_tag` applies no deletion filter — on the fixture
database the soft-deleted journal 2 is returned in the `"t"` tag feed. -/
theorem deleted_journal_listed_by_tag_counterexample :
    cDeletedJournal.is_deleted = true ∧
    cDeletedJournal ∈ cDB.journals ∧
    (get_journals_by_tag "t" cDB cAlice).map (fun l => l.map (fun e => e.id))
      = .ok [1, 2] :=
  ⟨rfl, by decide, rfl⟩

/-- C1 amended: a soft-deleted journal never appears in the paged feeds
(get-all, get-user-journals, user/{id}, my) and get-by-id rejects its id
with the same 404 raised for a nonexistent id; the tag-listing endpoint
is exempt, as it applies no deletion filter. -/
theorem soft_deleted_hidden_amended (db : DB) (caller : User)
    (uid skip limit : Nat) (j : Journal)
    (hn : (db.journals.map (fun x => x.id)).Nodup)
    (hj : j ∈ db.journals) (hdel : j.is_deleted = true) :
    (∀ e ∈ get_all_journals db caller skip limit, e.id ≠ j.id) ∧
    (∀ e ∈ get_user_journals db caller skip limit, e.id ≠ j.id) ∧
    (∀ e ∈ get_journals_by_user uid db caller skip limit, e.id ≠ j.id) ∧
    (∀ e ∈ get_my_journals db caller skip limit, e.id ≠ j.id) ∧
    get_journal_by_id j.id db = .error ⟨404, "Journal not found"⟩ := by
  have key : ∀ j', j' ∈ db.journals → j'.is_deleted = false → j'.id ≠ j.id := by
    intro j' hmem hlive hid
    have heq := journal_eq_of_id_eq db hn hmem hj hid
    subst heq
    rw [hdel] at hlive
    cases hlive
  refine ⟨?_, ?_, ?_, ?_, ?_⟩
  · intro e he
    rcases mem_get_all_source db caller skip limit e he with ⟨j', hmem, hlive, hid⟩
    rw [hid]
    exact key j' hmem hlive
  · intro e he
    rcases mem_userFeed_source db caller.id caller skip limit e he with
      ⟨j', hmem, hlive, hid⟩
    rw [hid]
    exact key j' hmem hlive
  · intro e he
    rcases mem_userFeed_source db uid caller skip limit e he with
      ⟨j', hmem, hlive, hid⟩
    rw [hid]
    exact key j' hmem hlive
  · intro e he
    rcases mem_userFeed_source db caller.id caller skip limit e he with
      ⟨j', hmem, hlive, hid⟩
    rw [hid]
    exact key j' hmem hlive
  · unfold get_journal_by_id
    rw [sessionGetJournal_of_mem db j hn hj]
    simp [hdel]

/-- Witness for C1 (amended) at a concrete input: get-by-id rejects the
fixture's soft-deleted journal id with 404. -/
theorem soft_deleted_hidden_witness :
    ((cDB.journals.map (fun x => x.id)).Nodup ∧
      cDeletedJournal ∈ cDB.journals ∧ cDeletedJournal.is_deleted = true) ∧
    get_journal_by_id cDeletedJournal.id cDB
      = .error ⟨404, "Journal not found"⟩ :=
  ⟨⟨by decide, by decide, rfl⟩,
   (soft_deleted_hidden_amended cDB cAlice 1 0 10 cDeletedJournal
     (by decide) (by decide) rfl).2.2.2.2⟩

/-- Number of Tag rows carrying a given name. -/
def countTagName (tags : List Tag) (n : String) : Nat :=
  (tags.filter (fun t => t.name == n)).length

/-- A name has no Tag row exactly when the lookup by that name fails. -/
theorem countTagName_eq_zero_iff (tags : List Tag) (n : String) :
    countTagName tags n = 0 ↔ tags.find? (fun t => t.name == n) = none := by
  unfold countTagName
  rw [List.length_eq_zero]
  constructor
  · intro hnil
    apply List.find?_eq_none.mpr
    intro t ht hpt
    have hmem : t ∈ tags.filter (fun t => t.name == n) :=
      List.mem_filter.mpr ⟨ht, hpt⟩
    rw [hnil] at hmem
    cases hmem
  · intro hfind
    apply List.eq_nil_iff_forall_not_mem.mpr
    intro t ht
    rcases List.mem_filter.mp ht with ⟨hmem, hcond⟩
    exact (List.find?_eq_none.mp hfind t hmem) hcond

/-- Appending one Tag row adds one to the count of its name only. -/
theorem countTagName_append_singleton (tags : List Tag) (t : Tag) (n : String) :
    countTagName (tags ++ [t]) n
      = countTagName tags n + (if t.name = n then 1 else 0) := by
  unfold countTagName
  rw [List.filter_append, List.length_append]
  congr 1
  by_cases ht : t.name = n
  · simp [ht]
  · simp [ht]

/-- Existing Tag rows survive the tag loop of `create_journal`. -/
theorem addTags_mem_preserved (names : List String) (tags : List Tag)
    (nid : Nat) (t : Tag) (ht : t ∈ tags) : t ∈ (addTags names tags nid).1 := by
  induction names generalizing tags nid with
  | nil => simpa [addTags] using ht
  | cons name rest ih =>
    cases hfind : tags.find? (fun x => x.name == name) with
    | some t0 =>
      simp only [addTags, hfind]
      exact ih tags nid ht
    | none =>
      simp only [addTags, hfind]
      exact ih (tags ++ [⟨nid, name⟩]) (nid + 1) (List.mem_append_left _ ht)

/-- Tag-row count after the tag loop: a name that already had rows keeps
them unchanged (the existing row is reused); a supplied name with no row
gets exactly one new row, even when it appears several times in the
supplied list (the pending row is visible to later lookups); all other
names stay untouched. -/
theorem addTags_countTagName (names : List String) (tags : List Tag)
    (nid : Nat) (n : String) :
    countTagName (addTags names tags nid).1 n =
      countTagName tags n +
        (if countTagName tags n = 0 ∧ n ∈ names then 1 else 0) := by
  induction names generalizing tags nid with
  | nil => simp [addTags]
  | cons name rest ih =>
    cases hfind : tags.find? (fun t => t.name == name) with
    | some t0 =>
      simp only [addTags, hfind]
      rw [ih tags nid]
      congr 1
      by_cases hn : n = name
      · subst hn
        have hne : countTagName tags n ≠ 0 := by
          intro h0
          have hnone := (countTagName_eq_zero_iff tags n).mp h0
          rw [hnone] at hfind
          cases hfind
        simp [hne]
      · simp [List.mem_cons, hn]
    | none =>
      simp only [addTags, hfind]
      rw [ih]
      by_cases hn : n = name
      · subst hn
        have h0 : countTagName tags n = 0 :=
          (countTagName_eq_zero_iff tags n).mpr hfind
        rw [countTagName_append_singleton]
        simp [h0, List.mem_cons]
      · rw [countTagName_append_singleton]
        have hne : (⟨nid, name⟩ : Tag).name ≠ n := fun hc => hn (hc.symm)
        simp only [hne, if_neg, Nat.add_zero]
        simp [List.mem_cons, hn]

/-- Every supplied name ends associated: some Tag row with that name is
both in the resulting tag table and among the tags appended to the
journal. -/
theorem addTags_assoc (names : List String) (tags : List Tag) (nid : Nat)
    (n : String) (hn : n ∈ names) :
    ∃ t, t ∈ (addTags names tags nid).1 ∧ t.name = n ∧
      t ∈ (addTags names tags nid).2.1 := by
  induction names generalizing tags nid with
  | nil => cases hn
  | cons name rest ih =>
    cases hfind : tags.find? (fun x => x.name == name) with
    | some t0 =>
      simp only [addTags, hfind]
      rcases List.mem_cons.mp hn with h1 | h1
      · subst h1
        refine ⟨t0,
          addTags_mem_preserved rest tags nid t0 (List.mem_of_find?_eq_some hfind),
          ?_, List.mem_cons_self _ _⟩
        have hname := List.find?_some hfind
        simpa using hname
      · rcases ih tags nid h1 with ⟨t, h2, h3, h4⟩
        exact ⟨t, h2, h3, List.mem_cons_of_mem _ h4⟩
    | none =>
      simp only [addTags, hfind]
      rcases List.mem_cons.mp hn with h1 | h1
      · subst h1
        refine ⟨⟨nid, n⟩,
          addTags_mem_preserved rest _ _ _
            (List.mem_append_right _ (List.mem_cons_self _ _)),
          rfl, List.mem_cons_self _ _⟩
      · rcases ih (tags ++ [⟨nid, name⟩]) (nid + 1) h1 with ⟨t, h2, h3, h4⟩
        exact ⟨t, h2, h3, List.mem_cons_of_mem _ h4⟩

/-- C4: creating a journal (a) leaves the row count of a tag name that
already existed unchanged and gives a supplied name that did not exist
exactly one row — one new Tag row per distinct missing supplied name,
never a duplicate; (b) associates every supplied tag name with the
created journal through a `journal_tag_link` row; (c) keeps every
pre-existing Tag row. -/
theorem create_journal_tag_semantics (data : JournalCreate) (db : DB)
    (caller : User) (newId nextTagId now : Nat) :
    (∀ n : String,
      countTagName (create_journal data db caller newId nextTagId now).1.tags n =
        countTagName db.tags n +
          (if countTagName db.tags n = 0 ∧ n ∈ data.tags then 1 else 0)) ∧
    (∀ n ∈ data.tags, ∃ t : Tag,
      t ∈ (create_journal data db caller newId nextTagId now).1.tags ∧
      t.name = n ∧
      (⟨newId, t.id⟩ : JournalTagLink) ∈
        (create_journal data db caller newId nextTagId now).1.journal_tag_link) ∧
    (∀ t ∈ db.tags,
      t ∈ (create_journal data db caller newId nextTagId now).1.tags) := by
  refine ⟨?_, ?_, ?_⟩
  · intro n
    simp only [create_journal]
    exact addTags_countTagName data.tags db.tags nextTagId n
  · intro n hn
    rcases addTags_assoc data.tags db.tags nextTagId n hn with ⟨t, h1, h2, h3⟩
    refine ⟨t, ?_, h2, ?_⟩
    · simp only [create_journal]
      exact h1
    · simp only [create_journal]
      exact List.mem_append_right _ (List.mem_map.mpr ⟨t, h3, rfl⟩)
  · intro t ht
    simp only [create_journal]
    exact addTags_mem_preserved data.tags db.tags nextTagId t ht

/-- Witness for C4 at a concrete input: creating a journal with tags
`["t", "x"]` on the fixture database (which already has tag `"t"`)
associates a Tag row named `"x"` with the new journal. -/
theorem create_journal_tag_semantics_witness :
    ("x" ∈ (["t", "x"] : List String)) ∧
    (∃ t : Tag,
      t ∈ (create_journal { title := "w", tags := ["t", "x"] }
            cDB cAlice 3 2 7).1.tags ∧
      t.name = "x" ∧
      (⟨3, t.id⟩ : JournalTagLink) ∈
        (create_journal { title := "w", tags := ["t", "x"] }
          cDB cAlice 3 2 7).1.journal_tag_link) :=
  ⟨by decide,
   (create_journal_tag_semantics { title := "w", tags := ["t", "x"] }
     cDB cAlice 3 2 7).2.1 "x" (by decide)⟩

end GratefulHearts
